import Mathlib

/-!
Shallow embedding of the GE induction cooktop controller firmware
(src/ge_induction_cooktop_controller.ino): GEA frame construction, the
CRC-16 checksum engine, escape handling, and the initialization
sequencer.  Bytes are modelled as `Nat` values reduced mod 256 wherever
the C code stores them into 8-bit fields; the transmitted byte stream of
each frame is a `List Nat`, and each frame-building function returns its
C return code together with the bytes it writes to the bus.
-/

namespace GECooktop

/-- GEA address of the controller (`LOCAL_ADDR`, line 18). -/
def LOCAL_ADDR : Nat := 0x87

/-- GEA address of generator board 1 (`GEN1_ADDR`, line 19). -/
def GEN1_ADDR : Nat := 0x88

/-- GEA address of generator board 2 (`GEN2_ADDR`, line 20). -/
def GEN2_ADDR : Nat := 0x89

/-- GEA address of generator board 3 (`GEN3_ADDR`, line 21). -/
def GEN3_ADDR : Nat := 0x8a

/-- Escape control code (`GEA_ESC`, line 48). -/
def GEA_ESC : Nat := 0xe0

/-- Acknowledge control code (`GEA_ACK`, line 49). -/
def GEA_ACK : Nat := 0xe1

/-- Start-of-frame control code (`GEA_SOF`, line 50). -/
def GEA_SOF : Nat := 0xe2

/-- End-of-frame control code (`GEA_EOF`, line 51). -/
def GEA_EOF : Nat := 0xe3

/-- Command code `CMD_SET_BOARD_CONFIG` (line 69). -/
def CMD_SET_BOARD_CONFIG : Nat := 0x26

/-- Command code `CMD_SET_PWR_LEVELS` (line 70). -/
def CMD_SET_PWR_LEVELS : Nat := 0x28

/-- Coil profile `COIL_TYPE_NONE` (line 79). -/
def COIL_TYPE_NONE : Nat := 0x00

/-- Coil profile `COIL_TYPE_1800_WATT` (line 80). -/
def COIL_TYPE_1800_WATT : Nat := 0x01

/-- Coil profile `COIL_TYPE_2500_WATT` (line 81). -/
def COIL_TYPE_2500_WATT : Nat := 0x02

/-- Coil profile `COIL_TYPE_3200_WATT` (line 82). -/
def COIL_TYPE_3200_WATT : Nat := 0x03

/-- Coil profile `COIL_TYPE_3700_WATT` (line 83). -/
def COIL_TYPE_3700_WATT : Nat := 0x04

/-- Personality id `PERSONALITY_FOUR_COILS` (line 90). -/
def PERSONALITY_FOUR_COILS : Nat := 0

/-- Personality id `PERSONALITY_FIVE_COILS` (line 91). -/
def PERSONALITY_FIVE_COILS : Nat := 1

/-- Minimum supported power step (`minPowerSteps`, line 42). -/
def minPowerSteps : Nat := 0

/-- Maximum supported power step (`maxPowerSteps`, line 43). -/
def maxPowerSteps : Nat := 19

/-- The 256-entry CRC-16 polynomial table (`crc16Table`, lines 97-130),
transcribed verbatim from the source. -/
def crc16Table : List Nat := [
  0x0000, 0x1021, 0x2042, 0x3063, 0x4084, 0x50A5, 0x60C6, 0x70E7,
  0x8108, 0x9129, 0xA14A, 0xB16B, 0xC18C, 0xD1AD, 0xE1CE, 0xF1EF,
  0x1231, 0x0210, 0x3273, 0x2252, 0x52B5, 0x4294, 0x72F7, 0x62D6,
  0x9339, 0x8318, 0xB37B, 0xA35A, 0xD3BD, 0xC39C, 0xF3FF, 0xE3DE,
  0x2462, 0x3443, 0x0420, 0x1401, 0x64E6, 0x74C7, 0x44A4, 0x5485,
  0xA56A, 0xB54B, 0x8528, 0x9509, 0xE5EE, 0xF5CF, 0xC5AC, 0xD58D,
  0x3653, 0x2672, 0x1611, 0x0630, 0x76D7, 0x66F6, 0x5695, 0x46B4,
  0xB75B, 0xA77A, 0x9719, 0x8738, 0xF7DF, 0xE7FE, 0xD79D, 0xC7BC,
  0x48C4, 0x58E5, 0x6886, 0x78A7, 0x0840, 0x1861, 0x2802, 0x3823,
  0xC9CC, 0xD9ED, 0xE98E, 0xF9AF, 0x8948, 0x9969, 0xA90A, 0xB92B,
  0x5AF5, 0x4AD4, 0x7AB7, 0x6A96, 0x1A71, 0x0A50, 0x3A33, 0x2A12,
  0xDBFD, 0xCBDC, 0xFBBF, 0xEB9E, 0x9B79, 0x8B58, 0xBB3B, 0xAB1A,
  0x6CA6, 0x7C87, 0x4CE4, 0x5CC5, 0x2C22, 0x3C03, 0x0C60, 0x1C41,
  0xEDAE, 0xFD8F, 0xCDEC, 0xDDCD, 0xAD2A, 0xBD0B, 0x8D68, 0x9D49,
  0x7E97, 0x6EB6, 0x5ED5, 0x4EF4, 0x3E13, 0x2E32, 0x1E51, 0x0E70,
  0xFF9F, 0xEFBE, 0xDFDD, 0xCFFC, 0xBF1B, 0xAF3A, 0x9F59, 0x8F78,
  0x9188, 0x81A9, 0xB1CA, 0xA1EB, 0xD10C, 0xC12D, 0xF14E, 0xE16F,
  0x1080, 0x00A1, 0x30C2, 0x20E3, 0x5004, 0x4025, 0x7046, 0x6067,
  0x83B9, 0x9398, 0xA3FB, 0xB3DA, 0xC33D, 0xD31C, 0xE37F, 0xF35E,
  0x02B1, 0x1290, 0x22F3, 0x32D2, 0x4235, 0x5214, 0x6277, 0x7256,
  0xB5EA, 0xA5CB, 0x95A8, 0x8589, 0xF56E, 0xE54F, 0xD52C, 0xC50D,
  0x34E2, 0x24C3, 0x14A0, 0x0481, 0x7466, 0x6447, 0x5424, 0x4405,
  0xA7DB, 0xB7FA, 0x8799, 0x97B8, 0xE75F, 0xF77E, 0xC71D, 0xD73C,
  0x26D3, 0x36F2, 0x0691, 0x16B0, 0x6657, 0x7676, 0x4615, 0x5634,
  0xD94C, 0xC96D, 0xF90E, 0xE92F, 0x99C8, 0x89E9, 0xB98A, 0xA9AB,
  0x5844, 0x4865, 0x7806, 0x6827, 0x18C0, 0x08E1, 0x3882, 0x28A3,
  0xCB7D, 0xDB5C, 0xEB3F, 0xFB1E, 0x8BF9, 0x9BD8, 0xABBB, 0xBB9A,
  0x4A75, 0x5A54, 0x6A37, 0x7A16, 0x0AF1, 0x1AD0, 0x2AB3, 0x3A92,
  0xFD2E, 0xED0F, 0xDD6C, 0xCD4D, 0xBDAA, 0xAD8B, 0x9DE8, 0x8DC9,
  0x7C26, 0x6C07, 0x5C64, 0x4C45, 0x3CA2, 0x2C83, 0x1CE0, 0x0CC1,
  0xEF1F, 0xFF3E, 0xCF5D, 0xDF7C, 0xAF9B, 0xBFBA, 0x8FD9, 0x9FF8,
  0x6E17, 0x7E36, 0x4E55, 0x5E74, 0x2E93, 0x3EB2, 0x0ED1, 0x1EF0]

/-- One step of the CRC loop body (line 145):
`crc16 = (crc16 >> 8) ^ crc16Table[(crc16 ^ *ptr++) & 0x00ff]`.
The cast `(uint16_t)*ptr` may sign-extend on targets where `char` is
signed, but only the low 8 bits of the xor enter the table index, so the
byte value mod 256 is all that matters and `Nat` bytes are faithful. -/
def crc16Step (crc16 b : Nat) : Nat :=
  (crc16 >>> 8) ^^^ crc16Table.getD ((crc16 ^^^ b) &&& 0xff) 0

/-- The checksum engine `CalculateCrc16` (lines 135-149): seed `0xe300`,
then the table-driven step over the buffer bytes in order.  The `NULL`
pointer guard of the C code corresponds to the empty list, for which the
fold likewise returns the seed. -/
def CalculateCrc16 (dataToCheck : List Nat) : Nat :=
  dataToCheck.foldl crc16Step 0xe300

/-- Range check `withinRange` (lines 154-156). -/
def withinRange (value minimum maximum : Nat) : Bool :=
  decide (minimum <= value ∧ value <= maximum)

/-- The escape classifier `isEscaped` (lines 161-171). -/
def isEscaped (value : Nat) : Bool :=
  decide (value = GEA_ESC ∨ value = GEA_ACK ∨ value = GEA_SOF ∨ value = GEA_EOF)

/-- Board-configuration frame builder `initSingleGenerator`
(lines 176-214).  Returns the C return value (always `0`) paired with
the bytes written to `Serial2`.  The 7 struct bytes are the header
(SOF, destination, `0x0a`, source), the command and the two profile
bytes; the checksum is computed over exactly those 7 bytes, then the
checksum low byte, high byte, EOF and ACK are appended.  The `memcpy`
of `txBufferSize` bytes out of the 7-byte struct copies 4 trailing
out-of-bounds stack bytes, but all 4 positions are overwritten before
transmission, so they do not appear in the model. -/
def initSingleGenerator (address profile1 profile2 : Nat) : Int × List Nat :=
  let msg : List Nat :=
    [GEA_SOF, address % 256, 0x0a, LOCAL_ADDR,
     CMD_SET_BOARD_CONFIG, profile1 % 256, profile2 % 256]
  let crc16 := CalculateCrc16 msg
  (0, msg ++ [crc16 &&& 0xff, (crc16 >>> 8) &&& 0xff, GEA_EOF, GEA_ACK])

/-- Power-level frame builder `setPowerLevels` (lines 219-272).
Returns the C return value paired with the bytes written to `Serial2`
(`(-1, [])` when the range check rejects before anything is built).
When the heartbeat collides with a control code, `txBuffer[7]` holds
`GEA_ESC` and `txBuffer[8]` the heartbeat; the CRC is then taken over
`txBufferSize + escapedBytes - 4 = 10` bytes, i.e. over the 7 struct
bytes, the escape marker, the heartbeat AND byte index 9, which at that
point still holds the stack byte the oversized `memcpy` read from
offset 9 past `msg` — modelled here by the extra `junk` parameter (its
low 8 bits).  Without an escape the CRC covers exactly the 7 struct
bytes plus the heartbeat, and `junk` is unused. -/
def setPowerLevels (address coil1Level coil2Level heartbeat junk : Nat) : Int × List Nat :=
  let coil1 := coil1Level % 256
  let coil2 := coil2Level % 256
  let hb := heartbeat % 256
  if !withinRange coil1 minPowerSteps maxPowerSteps &&
      !withinRange coil2 minPowerSteps maxPowerSteps then
    (-1, [])
  else
    let msg : List Nat :=
      [GEA_SOF, address % 256, 0x0b, LOCAL_ADDR, CMD_SET_PWR_LEVELS, coil1, coil2]
    if isEscaped hb then
      let crc16 := CalculateCrc16 (msg ++ [GEA_ESC, hb, junk % 256])
      (0, msg ++ [GEA_ESC, hb, crc16 &&& 0xff, (crc16 >>> 8) &&& 0xff, GEA_EOF, GEA_ACK])
    else
      let crc16 := CalculateCrc16 (msg ++ [hb])
      (0, msg ++ [hb, crc16 &&& 0xff, (crc16 >>> 8) &&& 0xff, GEA_EOF, GEA_ACK])

/-- The initialization sequencer `initCooktop` (lines 277-310), as the
list of frames it emits on the bus, in order.  The heartbeat passed to
`setPowerLevels` is `0`, which is never escaped, so the `junk`
parameter is irrelevant and instantiated with `0`. -/
def initCooktop (personality : Nat) : List (List Nat) :=
  if personality = PERSONALITY_FOUR_COILS then
    [(initSingleGenerator GEN1_ADDR COIL_TYPE_2500_WATT COIL_TYPE_2500_WATT).2,
     (initSingleGenerator GEN2_ADDR COIL_TYPE_3700_WATT COIL_TYPE_1800_WATT).2,
     (setPowerLevels GEN1_ADDR 0 0 0 0).2,
     (setPowerLevels GEN2_ADDR 0 0 0 0).2]
  else if personality = PERSONALITY_FIVE_COILS then
    [(initSingleGenerator GEN1_ADDR COIL_TYPE_2500_WATT COIL_TYPE_2500_WATT).2,
     (initSingleGenerator GEN2_ADDR COIL_TYPE_3700_WATT COIL_TYPE_NONE).2,
     (initSingleGenerator GEN3_ADDR COIL_TYPE_1800_WATT COIL_TYPE_3200_WATT).2,
     (setPowerLevels GEN1_ADDR 0 0 0 0).2,
     (setPowerLevels GEN2_ADDR 0 0 0 0).2,
     (setPowerLevels GEN3_ADDR 0 0 0 0).2]
  else []

/-! ### Reference implementations

The following definitions do not embed source code; they follow the
spec's words and serve as independent references the embedded code is
compared against: a bit-by-bit CRC built from the governing polynomial
(spec section 8, "an independently computed reference implementation of
the same polynomial/seed") and a reference frame decoder (spec section
8, "de-escaped and checksum-verified by an independent reference
decoder"). -/

/-- One bit-step of the CCITT CRC-16 polynomial `0x1021`, MSB first,
truncated to 16 bits. -/
def crcBit (crc : Nat) : Nat :=
  if crc &&& 0x8000 ≠ 0 then ((crc <<< 1) ^^^ 0x1021) &&& 0xffff
  else (crc <<< 1) &&& 0xffff

/-- Modelled from the spec: reference table entry for byte `i`, derived
from the polynomial by eight bit-steps instead of being hard-coded. -/
def crcTableEntry (i : Nat) : Nat :=
  crcBit (crcBit (crcBit (crcBit (crcBit (crcBit (crcBit (crcBit ((i &&& 0xff) <<< 8))))))))

/-- Modelled from the spec: reference CRC byte step using the derived
table entries. -/
def crcRefStep (crc b : Nat) : Nat :=
  (crc >>> 8) ^^^ crcTableEntry ((crc ^^^ b) &&& 0xff)

/-- Modelled from the spec: independent reference CRC-16 over a buffer,
same seed `0xe300`, table entries computed from the polynomial. -/
def crcRef (data : List Nat) : Nat :=
  data.foldl crcRefStep 0xe300

/-- Modelled from the spec: escape-marker removal.  Each escape marker
is dropped and the byte it protects is kept literally. -/
def deEscape : List Nat → List Nat
  | [] => []
  | [b] => if b = GEA_ESC then [] else [b]
  | b :: c :: rest =>
    if b = GEA_ESC then c :: deEscape rest
    else b :: deEscape (c :: rest)

/-- Modelled from the spec: independent reference decoder.  It strips
the trailing EOF and ACK bytes (checking their values), splits off the
two checksum bytes (low byte first), removes escape markers from the
remaining region and verifies the checksum over the de-escaped
header-plus-payload bytes, yielding those bytes on success. -/
def refDecode (tx : List Nat) : Option (List Nat) :=
  if tx.length < 4 then none
  else if tx.drop (tx.length - 2) ≠ [GEA_EOF, GEA_ACK] then none
  else
    let body := tx.take (tx.length - 2)
    let region := body.take (body.length - 2)
    let crcBytes := body.drop (body.length - 2)
    let logical := deEscape region
    if CalculateCrc16 logical = crcBytes.getD 0 0 + 256 * crcBytes.getD 1 0 then
      some logical
    else none

/-! ### Helper lemmas -/

set_option maxRecDepth 100000 in
/-- The hard-coded table agrees with the polynomial-derived reference
table on every index. -/
lemma crc16Table_getD_eq : ∀ i < 256, crc16Table.getD i 0 = crcTableEntry i := by
  decide

set_option maxRecDepth 100000 in
/-- Every hard-coded table entry is a 16-bit value. -/
lemma crc16Table_getD_lt : ∀ i < 256, crc16Table.getD i 0 < 65536 := by
  decide

/-- The masked table index is always in range. -/
lemma and_ff_lt (x : Nat) : x &&& 0xff < 256 :=
  lt_of_le_of_lt Nat.and_le_right (by norm_num)

/-- The table-driven step equals the reference step. -/
lemma crc16Step_eq_ref (crc b : Nat) : crc16Step crc b = crcRefStep crc b := by
  unfold crc16Step crcRefStep
  rw [crc16Table_getD_eq _ (and_ff_lt _)]

/-- The CRC step keeps the accumulator below `2^16`. -/
lemma crc16Step_lt (crc b : Nat) (h : crc < 65536) : crc16Step crc b < 65536 := by
  unfold crc16Step
  have h1 : crc >>> 8 < 65536 := by
    have := Nat.div_le_self crc (2 ^ 8)
    rw [Nat.shiftRight_eq_div_pow]
    omega
  have h2 : crc16Table.getD ((crc ^^^ b) &&& 0xff) 0 < 65536 :=
    crc16Table_getD_lt _ (and_ff_lt _)
  have : crc >>> 8 ^^^ crc16Table.getD ((crc ^^^ b) &&& 0xff) 0 < 2 ^ 16 :=
    Nat.xor_lt_two_pow (by omega) (by omega)
  omega

/-- The CRC of any buffer is a 16-bit value. -/
lemma CalculateCrc16_lt (l : List Nat) : CalculateCrc16 l < 65536 := by
  have key : ∀ (l : List Nat) (c : Nat), c < 65536 → l.foldl crc16Step c < 65536 := by
    intro l
    induction l with
    | nil => intro c h; simpa using h
    | cons b t ih =>
      intro c h
      simpa using ih _ (crc16Step_lt c b h)
  exact key _ _ (by norm_num)

/-- The embedded CRC equals the reference CRC from any accumulator. -/
lemma foldl_crc16Step_eq_ref (l : List Nat) :
    ∀ c, l.foldl crc16Step c = l.foldl crcRefStep c := by
  induction l with
  | nil => intro c; rfl
  | cons b t ih =>
    intro c
    simp only [List.foldl_cons, crc16Step_eq_ref]
    exact ih _

/-- Removing escape markers from a region that contains none is the
identity. -/
lemma deEscape_eq_self : ∀ l : List Nat, (∀ b ∈ l, b ≠ GEA_ESC) → deEscape l = l := by
  intro l
  induction l with
  | nil => intro _; rfl
  | cons b rest ih =>
    intro h
    have hb : b ≠ GEA_ESC := h b (by simp)
    cases rest with
    | nil => simp [deEscape, hb]
    | cons c rest2 =>
      have hrest : ∀ x ∈ c :: rest2, x ≠ GEA_ESC := by
        intro x hx
        exact h x (by simp [hx])
      simp only [deEscape, if_neg hb]
      rw [ih hrest]

/-- Frames of the shape `L ++ [crc_lo, crc_hi, EOF, ACK]` whose stored
checksum is the CRC of `L` and whose region contains no escape-marker
byte are accepted by the reference decoder and decode back to `L`. -/
lemma refDecode_append (L : List Nat) (h : ∀ b ∈ L, b ≠ GEA_ESC) :
    refDecode (L ++ [CalculateCrc16 L &&& 0xff, (CalculateCrc16 L >>> 8) &&& 0xff,
      GEA_EOF, GEA_ACK]) = some L := by
  have hlt : CalculateCrc16 L < 65536 := CalculateCrc16_lt L
  have hassoc : L ++ [CalculateCrc16 L &&& 0xff, (CalculateCrc16 L >>> 8) &&& 0xff,
        GEA_EOF, GEA_ACK]
      = (L ++ [CalculateCrc16 L &&& 0xff, (CalculateCrc16 L >>> 8) &&& 0xff])
        ++ [GEA_EOF, GEA_ACK] := by
    simp
  have hlen2 : (L ++ [CalculateCrc16 L &&& 0xff, (CalculateCrc16 L >>> 8) &&& 0xff]).length
      = L.length + 2 := by simp
  rw [refDecode, hassoc]
  rw [if_neg (by simp)]
  have hlentx : ((L ++ [CalculateCrc16 L &&& 0xff, (CalculateCrc16 L >>> 8) &&& 0xff])
      ++ [GEA_EOF, GEA_ACK]).length - 2 = L.length + 2 := by simp
  rw [hlentx]
  rw [List.drop_left' hlen2, List.take_left' hlen2]
  rw [if_neg (by simp)]
  simp only [hlen2, Nat.add_sub_cancel]
  rw [List.take_left' rfl, List.drop_left' rfl]
  rw [deEscape_eq_self L h]
  have hcond : CalculateCrc16 L
      = ([CalculateCrc16 L &&& 0xff, (CalculateCrc16 L >>> 8) &&& 0xff] : List Nat).getD 0 0
        + 256 * ([CalculateCrc16 L &&& 0xff,
            (CalculateCrc16 L >>> 8) &&& 0xff] : List Nat).getD 1 0 := by
    simp only [List.getD_cons_zero, List.getD_cons_succ]
    have hmask : (0xff : Nat) = 2 ^ 8 - 1 := rfl
    rw [hmask, Nat.and_pow_two_sub_one_eq_mod, Nat.and_pow_two_sub_one_eq_mod,
      Nat.shiftRight_eq_div_pow]
    omega
  rw [if_pos hcond]

/-- Unfolding of `setPowerLevels` when the range check rejects: both
coil bytes outside the supported range. -/
lemma setPowerLevels_rejected (address c1 c2 hb junk : Nat)
    (h1 : withinRange (c1 % 256) minPowerSteps maxPowerSteps = false)
    (h2 : withinRange (c2 % 256) minPowerSteps maxPowerSteps = false) :
    setPowerLevels address c1 c2 hb junk = (-1, []) := by
  unfold setPowerLevels
  simp [h1, h2]

/-- Unfolding of `setPowerLevels` when accepted and the heartbeat does
not collide with a control code. -/
lemma setPowerLevels_accepted_noesc (address c1 c2 hb junk : Nat)
    (hacc : withinRange (c1 % 256) minPowerSteps maxPowerSteps = true ∨
            withinRange (c2 % 256) minPowerSteps maxPowerSteps = true)
    (hesc : isEscaped (hb % 256) = false) :
    setPowerLevels address c1 c2 hb junk =
      ((0 : Int), [GEA_SOF, address % 256, 0x0b, LOCAL_ADDR, CMD_SET_PWR_LEVELS, c1 % 256, c2 % 256]
        ++ [hb % 256,
            CalculateCrc16 ([GEA_SOF, address % 256, 0x0b, LOCAL_ADDR, CMD_SET_PWR_LEVELS,
              c1 % 256, c2 % 256] ++ [hb % 256]) &&& 0xff,
            (CalculateCrc16 ([GEA_SOF, address % 256, 0x0b, LOCAL_ADDR, CMD_SET_PWR_LEVELS,
              c1 % 256, c2 % 256] ++ [hb % 256]) >>> 8) &&& 0xff,
            GEA_EOF, GEA_ACK]) := by
  unfold setPowerLevels
  have hcond : (!withinRange (c1 % 256) minPowerSteps maxPowerSteps &&
      !withinRange (c2 % 256) minPowerSteps maxPowerSteps) = false := by
    rcases hacc with h | h <;> simp [h]
  simp [hcond, hesc]

/-- Unfolding of `setPowerLevels` when accepted and the heartbeat does
collide with a control code: an escape marker is inserted and the CRC
additionally covers the out-of-bounds `junk` byte. -/
lemma setPowerLevels_accepted_esc (address c1 c2 hb junk : Nat)
    (hacc : withinRange (c1 % 256) minPowerSteps maxPowerSteps = true ∨
            withinRange (c2 % 256) minPowerSteps maxPowerSteps = true)
    (hesc : isEscaped (hb % 256) = true) :
    setPowerLevels address c1 c2 hb junk =
      ((0 : Int), [GEA_SOF, address % 256, 0x0b, LOCAL_ADDR, CMD_SET_PWR_LEVELS, c1 % 256, c2 % 256]
        ++ [GEA_ESC, hb % 256,
            CalculateCrc16 ([GEA_SOF, address % 256, 0x0b, LOCAL_ADDR, CMD_SET_PWR_LEVELS,
              c1 % 256, c2 % 256] ++ [GEA_ESC, hb % 256, junk % 256]) &&& 0xff,
            (CalculateCrc16 ([GEA_SOF, address % 256, 0x0b, LOCAL_ADDR, CMD_SET_PWR_LEVELS,
              c1 % 256, c2 % 256] ++ [GEA_ESC, hb % 256, junk % 256]) >>> 8) &&& 0xff,
            GEA_EOF, GEA_ACK]) := by
  unfold setPowerLevels
  have hcond : (!withinRange (c1 % 256) minPowerSteps maxPowerSteps &&
      !withinRange (c2 % 256) minPowerSteps maxPowerSteps) = false := by
    rcases hacc with h | h <;> simp [h]
  simp [hcond, hesc]

/-- Claim C3: for every `(coil1, coil2)` where both values lie outside
`[0, 19]`, `setPowerLevels` returns the out-of-range error `-1` before
any frame bytes are built, transmits zero bytes on the bus, and calling
it twice with such arguments transmits zero bytes both times. -/
theorem C3_both_out_of_range_rejected (address c1 c2 hb junk : Nat)
    (h1 : withinRange (c1 % 256) minPowerSteps maxPowerSteps = false)
    (h2 : withinRange (c2 % 256) minPowerSteps maxPowerSteps = false) :
    setPowerLevels address c1 c2 hb junk = (-1, [])
    ∧ ((setPowerLevels address c1 c2 hb junk).2
        ++ (setPowerLevels address c1 c2 hb junk).2).length = 0 := by
  have h := setPowerLevels_rejected address c1 c2 hb junk h1 h2
  refine ⟨h, ?_⟩
  rw [h]
  rfl

/-- Witness for C3 at the concrete input `(0x88, 20, 255, 7, 0)`. -/
theorem C3_both_out_of_range_rejected_witness :
    withinRange (20 % 256) minPowerSteps maxPowerSteps = false
    ∧ withinRange (255 % 256) minPowerSteps maxPowerSteps = false
    ∧ (setPowerLevels GEN1_ADDR 20 255 7 0 = (-1, [])
       ∧ ((setPowerLevels GEN1_ADDR 20 255 7 0).2
           ++ (setPowerLevels GEN1_ADDR 20 255 7 0).2).length = 0) :=
  ⟨by decide, by decide,
   C3_both_out_of_range_rejected GEN1_ADDR 20 255 7 0 (by decide) (by decide)⟩

/-- Claim C6: the checksum is deterministic and pure: it equals the
fold of `crc = (crc >>> 8) ^^^ table[(crc ^^^ byte) &&& 0xff]` over the
buffer from seed `0xe300`; the empty buffer yields `0xe300`; and on
every buffer it matches the independent reference implementation
`crcRef`, whose table entries are derived bit-by-bit from the
polynomial `0x1021`. -/
theorem C6_checksum_deterministic_matches_reference :
    CalculateCrc16 [] = 0xe300
    ∧ (∀ data : List Nat, CalculateCrc16 data = data.foldl crc16Step 0xe300)
    ∧ (∀ data : List Nat, CalculateCrc16 data = crcRef data) :=
  ⟨rfl, fun _ => rfl, fun data => foldl_crc16Step_eq_ref data 0xe300⟩

/-- Claim C8: the initialization sequencer emits exactly 4 frames for
the 4-coil personality, in the order configure board-1 (2500W/2500W),
configure board-2 (3700W/1800W), zero power to board-1, zero power to
board-2; and exactly 6 frames for the 5-coil personality, in the order
configure board-1 (2500W/2500W), configure board-2 (3700W/none),
configure board-3 (1800W/3200W), then zero power to boards 1, 2, 3. -/
theorem C8_init_sequence_frames :
    initCooktop PERSONALITY_FOUR_COILS
      = [(initSingleGenerator GEN1_ADDR COIL_TYPE_2500_WATT COIL_TYPE_2500_WATT).2,
         (initSingleGenerator GEN2_ADDR COIL_TYPE_3700_WATT COIL_TYPE_1800_WATT).2,
         (setPowerLevels GEN1_ADDR 0 0 0 0).2,
         (setPowerLevels GEN2_ADDR 0 0 0 0).2]
    ∧ (initCooktop PERSONALITY_FOUR_COILS).length = 4
    ∧ initCooktop PERSONALITY_FIVE_COILS
      = [(initSingleGenerator GEN1_ADDR COIL_TYPE_2500_WATT COIL_TYPE_2500_WATT).2,
         (initSingleGenerator GEN2_ADDR COIL_TYPE_3700_WATT COIL_TYPE_NONE).2,
         (initSingleGenerator GEN3_ADDR COIL_TYPE_1800_WATT COIL_TYPE_3200_WATT).2,
         (setPowerLevels GEN1_ADDR 0 0 0 0).2,
         (setPowerLevels GEN2_ADDR 0 0 0 0).2,
         (setPowerLevels GEN3_ADDR 0 0 0 0).2]
    ∧ (initCooktop PERSONALITY_FIVE_COILS).length = 6 := by
  refine ⟨?_, ?_, ?_, ?_⟩ <;> rfl

/-- Claim C10: the board-configuration operation can never fail: for
every `(address, profile1, profile2)`, `initSingleGenerator` performs
no validation, returns `0`, and transmits exactly 11 bytes (4 header
bytes, 1 command byte, 2 profile bytes, 2 checksum bytes, EOF, ACK). -/
theorem C10_board_config_never_fails (address profile1 profile2 : Nat) :
    (initSingleGenerator address profile1 profile2).1 = 0
    ∧ (initSingleGenerator address profile1 profile2).2.length = 11 := by
  constructor
  · rfl
  · simp [initSingleGenerator]
/-- Counterexample to claim C2 as stated: the accepted power-level
frame for `(coil1, coil2, heartbeat) = (0, 0xE1, 0)` carries the
control-code value `0xE1` as its coil-2 payload byte (index 6) with no
escape marker in front of it. -/
theorem C2_unescaped_coil_byte_counterexample :
    (setPowerLevels GEN1_ADDR 0 0xE1 0 0).1 = 0
    ∧ (setPowerLevels GEN1_ADDR 0 0xE1 0 0).2.getD 6 0 = 0xE1
    ∧ isEscaped ((setPowerLevels GEN1_ADDR 0 0xE1 0 0).2.getD 6 0) = true
    ∧ (setPowerLevels GEN1_ADDR 0 0xE1 0 0).2.getD 5 0 ≠ GEA_ESC
    ∧ (setPowerLevels GEN1_ADDR 0 0xE1 0 0).2.length = 12 := by
  decide

/-- Claim C2, amended: the escape rule is applied to the heartbeat byte
only.  For every accepted power-level frame whose heartbeat collides
with a control code, an escape marker immediately precedes the
heartbeat in the transmitted stream (indices 7 and 8); coil-level
payload bytes equal to control codes are transmitted unescaped (see the
counterexample). -/
theorem C2_escape_only_heartbeat (address c1 c2 hb junk : Nat)
    (hacc : withinRange (c1 % 256) minPowerSteps maxPowerSteps = true ∨
            withinRange (c2 % 256) minPowerSteps maxPowerSteps = true)
    (hesc : isEscaped (hb % 256) = true) :
    (setPowerLevels address c1 c2 hb junk).2.getD 7 0 = GEA_ESC
    ∧ (setPowerLevels address c1 c2 hb junk).2.getD 8 0 = hb % 256 := by
  rw [setPowerLevels_accepted_esc address c1 c2 hb junk hacc hesc]
  exact ⟨rfl, rfl⟩

/-- Witness for the amended C2 at the concrete input
`(0x88, 3, 200, 0xE3, 5)`. -/
theorem C2_escape_only_heartbeat_witness :
    (withinRange (3 % 256) minPowerSteps maxPowerSteps = true ∨
     withinRange (200 % 256) minPowerSteps maxPowerSteps = true)
    ∧ isEscaped (0xE3 % 256) = true
    ∧ (setPowerLevels GEN1_ADDR 3 200 0xE3 5).2.getD 7 0 = GEA_ESC
    ∧ (setPowerLevels GEN1_ADDR 3 200 0xE3 5).2.getD 8 0 = 0xE3 % 256 :=
  ⟨Or.inl (by decide), by decide,
   (C2_escape_only_heartbeat GEN1_ADDR 3 200 0xE3 5 (Or.inl (by decide)) (by decide)).1,
   (C2_escape_only_heartbeat GEN1_ADDR 3 200 0xE3 5 (Or.inl (by decide)) (by decide)).2⟩

/-- Counterexample to claim C4 as stated: the board-configuration
frame declares length `0x0a = 10`, but its header+payload+checksum
span (all bytes except the trailing EOF and ACK) is 9 bytes. -/
theorem C4_length_field_counterexample :
    (initSingleGenerator GEN1_ADDR COIL_TYPE_2500_WATT COIL_TYPE_2500_WATT).2.getD 2 0 = 0x0a
    ∧ (initSingleGenerator GEN1_ADDR COIL_TYPE_2500_WATT COIL_TYPE_2500_WATT).2.length = 11
    ∧ (initSingleGenerator GEN1_ADDR COIL_TYPE_2500_WATT COIL_TYPE_2500_WATT).2.length - 2
        ≠ 0x0a := by
  decide

/-- Claim C4, amended: the header length field equals the byte count
of header + payload + checksum + EOF terminator, i.e. the transmitted
byte count minus the ACK byte and minus any inserted escape marker
(which is not part of the logical frame). -/
theorem C4_length_field_amended :
    (∀ address p1 p2 : Nat,
       (initSingleGenerator address p1 p2).2.getD 2 0
         = (initSingleGenerator address p1 p2).2.length - 1)
    ∧ ∀ address c1 c2 hb junk : Nat,
        (withinRange (c1 % 256) minPowerSteps maxPowerSteps = true ∨
         withinRange (c2 % 256) minPowerSteps maxPowerSteps = true) →
        (setPowerLevels address c1 c2 hb junk).2.getD 2 0
          = (setPowerLevels address c1 c2 hb junk).2.length - 1
            - (if isEscaped (hb % 256) = true then 1 else 0) := by
  constructor
  · intro address p1 p2
    rfl
  · intro address c1 c2 hb junk hacc
    cases hesc : isEscaped (hb % 256)
    · rw [setPowerLevels_accepted_noesc address c1 c2 hb junk hacc hesc]
      simp [hesc]
    · rw [setPowerLevels_accepted_esc address c1 c2 hb junk hacc hesc]
      simp [hesc]

/-- Witness for the amended C4 at the concrete inputs `(0x88, 2, 2)`
and `(0x88, 0, 224, 0xE1, 0)` (the latter exercising the escaped
heartbeat). -/
theorem C4_length_field_amended_witness :
    (initSingleGenerator GEN1_ADDR 2 2).2.getD 2 0
      = (initSingleGenerator GEN1_ADDR 2 2).2.length - 1
    ∧ (withinRange (0 % 256) minPowerSteps maxPowerSteps = true ∨
       withinRange (224 % 256) minPowerSteps maxPowerSteps = true)
    ∧ (setPowerLevels GEN1_ADDR 0 224 0xE1 0).2.getD 2 0
        = (setPowerLevels GEN1_ADDR 0 224 0xE1 0).2.length - 1
          - (if isEscaped (0xE1 % 256) = true then 1 else 0) :=
  ⟨C4_length_field_amended.1 GEN1_ADDR 2 2, Or.inl (by decide),
   C4_length_field_amended.2 GEN1_ADDR 0 224 0xE1 0 (Or.inl (by decide))⟩

/-- Claim C5: for every `(coil1, coil2)` with at least one value in
`[0, 19]` and every heartbeat, `setPowerLevels` succeeds and transmits
a frame whose declared length field (index 2) is `0x0b`; if the
heartbeat equals one of the four control codes, an escape marker byte
appears immediately before the heartbeat (indices 7 and 8) while the
length field remains `0x0b`. -/
theorem C5_accepted_frame_escape (address c1 c2 hb junk : Nat)
    (hacc : withinRange (c1 % 256) minPowerSteps maxPowerSteps = true ∨
            withinRange (c2 % 256) minPowerSteps maxPowerSteps = true) :
    (setPowerLevels address c1 c2 hb junk).1 = 0
    ∧ (setPowerLevels address c1 c2 hb junk).2.getD 2 0 = 0x0b
    ∧ (setPowerLevels address c1 c2 hb junk).2 ≠ []
    ∧ (isEscaped (hb % 256) = true →
        (setPowerLevels address c1 c2 hb junk).2.getD 7 0 = GEA_ESC
        ∧ (setPowerLevels address c1 c2 hb junk).2.getD 8 0 = hb % 256
        ∧ (setPowerLevels address c1 c2 hb junk).2.getD 2 0 = 0x0b) := by
  cases hesc : isEscaped (hb % 256)
  · rw [setPowerLevels_accepted_noesc address c1 c2 hb junk hacc hesc]
    refine ⟨rfl, rfl, by simp, ?_⟩
    intro h
    cases h
  · rw [setPowerLevels_accepted_esc address c1 c2 hb junk hacc hesc]
    exact ⟨rfl, rfl, by simp, fun _ => ⟨rfl, rfl, rfl⟩⟩

/-- Witness for C5 at the concrete input `(0x88, 5, 30, 0xE2, 3)`,
whose heartbeat `0xE2` collides with the start-of-frame code. -/
theorem C5_accepted_frame_escape_witness :
    (withinRange (5 % 256) minPowerSteps maxPowerSteps = true ∨
     withinRange (30 % 256) minPowerSteps maxPowerSteps = true)
    ∧ ((setPowerLevels GEN1_ADDR 5 30 0xE2 3).1 = 0
       ∧ (setPowerLevels GEN1_ADDR 5 30 0xE2 3).2.getD 2 0 = 0x0b
       ∧ (setPowerLevels GEN1_ADDR 5 30 0xE2 3).2 ≠ []
       ∧ (isEscaped (0xE2 % 256) = true →
           (setPowerLevels GEN1_ADDR 5 30 0xE2 3).2.getD 7 0 = GEA_ESC
           ∧ (setPowerLevels GEN1_ADDR 5 30 0xE2 3).2.getD 8 0 = 0xE2 % 256
           ∧ (setPowerLevels GEN1_ADDR 5 30 0xE2 3).2.getD 2 0 = 0x0b)) :=
  ⟨Or.inl (by decide), C5_accepted_frame_escape GEN1_ADDR 5 30 0xE2 3 (Or.inl (by decide))⟩
/-- Claim C7: every emitted frame has exactly the byte order
SOF, destination, length, source, command, payload fields (with the
escape marker inserted), checksum low byte, checksum high byte, EOF,
ACK; the checksum is serialized low byte first and the last two bytes
are `0xE3` then `0xE1`. -/
theorem C7_frame_byte_order (address p1 p2 c1 c2 hb junk : Nat)
    (hacc : withinRange (c1 % 256) minPowerSteps maxPowerSteps = true ∨
            withinRange (c2 % 256) minPowerSteps maxPowerSteps = true) :
    (initSingleGenerator address p1 p2).2
      = [GEA_SOF, address % 256, 0x0a, LOCAL_ADDR, CMD_SET_BOARD_CONFIG, p1 % 256, p2 % 256]
        ++ [CalculateCrc16 [GEA_SOF, address % 256, 0x0a, LOCAL_ADDR, CMD_SET_BOARD_CONFIG,
              p1 % 256, p2 % 256] &&& 0xff,
            (CalculateCrc16 [GEA_SOF, address % 256, 0x0a, LOCAL_ADDR, CMD_SET_BOARD_CONFIG,
              p1 % 256, p2 % 256] >>> 8) &&& 0xff,
            GEA_EOF, GEA_ACK]
    ∧ (setPowerLevels address c1 c2 hb junk).2
      = [GEA_SOF, address % 256, 0x0b, LOCAL_ADDR, CMD_SET_PWR_LEVELS, c1 % 256, c2 % 256]
        ++ (if isEscaped (hb % 256) = true then [GEA_ESC] else [])
        ++ [hb % 256]
        ++ [CalculateCrc16 ([GEA_SOF, address % 256, 0x0b, LOCAL_ADDR, CMD_SET_PWR_LEVELS,
              c1 % 256, c2 % 256]
              ++ (if isEscaped (hb % 256) = true then [GEA_ESC, hb % 256, junk % 256]
                  else [hb % 256])) &&& 0xff,
            (CalculateCrc16 ([GEA_SOF, address % 256, 0x0b, LOCAL_ADDR, CMD_SET_PWR_LEVELS,
              c1 % 256, c2 % 256]
              ++ (if isEscaped (hb % 256) = true then [GEA_ESC, hb % 256, junk % 256]
                  else [hb % 256])) >>> 8) &&& 0xff,
            GEA_EOF, GEA_ACK] := by
  constructor
  · rfl
  · cases hesc : isEscaped (hb % 256)
    · rw [setPowerLevels_accepted_noesc address c1 c2 hb junk hacc hesc]
      simp [hesc]
    · rw [setPowerLevels_accepted_esc address c1 c2 hb junk hacc hesc]
      simp [hesc]
/-- Witness for C7 at the concrete inputs `(0x89, 4, 1)` and
`(0x89, 0, 0, 0xE0, 1)` (escaped heartbeat). -/
theorem C7_frame_byte_order_witness :
    (withinRange (0 % 256) minPowerSteps maxPowerSteps = true ∨
     withinRange (0 % 256) minPowerSteps maxPowerSteps = true)
    ∧ ((initSingleGenerator GEN2_ADDR 4 1).2
        = [GEA_SOF, GEN2_ADDR % 256, 0x0a, LOCAL_ADDR, CMD_SET_BOARD_CONFIG, 4 % 256, 1 % 256]
          ++ [CalculateCrc16 [GEA_SOF, GEN2_ADDR % 256, 0x0a, LOCAL_ADDR, CMD_SET_BOARD_CONFIG,
                4 % 256, 1 % 256] &&& 0xff,
              (CalculateCrc16 [GEA_SOF, GEN2_ADDR % 256, 0x0a, LOCAL_ADDR, CMD_SET_BOARD_CONFIG,
                4 % 256, 1 % 256] >>> 8) &&& 0xff,
              GEA_EOF, GEA_ACK]
       ∧ (setPowerLevels GEN2_ADDR 0 0 0xE0 1).2
        = [GEA_SOF, GEN2_ADDR % 256, 0x0b, LOCAL_ADDR, CMD_SET_PWR_LEVELS, 0 % 256, 0 % 256]
          ++ (if isEscaped (0xE0 % 256) = true then [GEA_ESC] else [])
          ++ [0xE0 % 256]
          ++ [CalculateCrc16 ([GEA_SOF, GEN2_ADDR % 256, 0x0b, LOCAL_ADDR, CMD_SET_PWR_LEVELS,
                0 % 256, 0 % 256]
                ++ (if isEscaped (0xE0 % 256) = true then [GEA_ESC, 0xE0 % 256, 1 % 256]
                    else [0xE0 % 256])) &&& 0xff,
              (CalculateCrc16 ([GEA_SOF, GEN2_ADDR % 256, 0x0b, LOCAL_ADDR, CMD_SET_PWR_LEVELS,
                0 % 256, 0 % 256]
                ++ (if isEscaped (0xE0 % 256) = true then [GEA_ESC, 0xE0 % 256, 1 % 256]
                    else [0xE0 % 256])) >>> 8) &&& 0xff,
              GEA_EOF, GEA_ACK]) :=
  ⟨Or.inl (by decide), C7_frame_byte_order GEN2_ADDR 4 1 0 0 0xE0 1 (Or.inl (by decide))⟩

/-- Claim C1 concerns the checksummed region.  This theorem evaluates
the code at the failing input `(0x88, 0, 0, heartbeat = 0xE0)`: the
stored checksum byte (index 9) is the CRC over header+payload PLUS the
escape marker and one out-of-bounds stack byte (`junk`), it differs
from the CRC over exactly the logical header+payload bytes, and the
transmitted frame depends on the uninitialized `junk` byte
(`junk = 0` versus `junk = 1` give different frames). -/
theorem C1_escaped_heartbeat_checksum_region_bug :
    (setPowerLevels GEN1_ADDR 0 0 0xE0 0).2.getD 9 0
      = CalculateCrc16 ([GEA_SOF, GEN1_ADDR, 0x0b, LOCAL_ADDR, CMD_SET_PWR_LEVELS, 0, 0]
          ++ [GEA_ESC, 0xE0, 0]) &&& 0xff
    ∧ (setPowerLevels GEN1_ADDR 0 0 0xE0 0).2.getD 9 0
        ≠ CalculateCrc16 [GEA_SOF, GEN1_ADDR, 0x0b, LOCAL_ADDR, CMD_SET_PWR_LEVELS,
            0, 0, 0xE0] &&& 0xff
    ∧ (setPowerLevels GEN1_ADDR 0 0 0xE0 0).2 ≠ (setPowerLevels GEN1_ADDR 0 0 0xE0 1).2 := by
  decide

/-- Counterexample to claim C9 as stated: the accepted power-level
frame with escaped heartbeat `0xE0` is rejected by the reference
decoder (its stored checksum was computed over the escape marker and a
stack byte, so checksum verification over the de-escaped
header+payload fails). -/
theorem C9_roundtrip_counterexample :
    refDecode (setPowerLevels GEN1_ADDR 0 0 0xE0 0).2 = none
    ∧ (setPowerLevels GEN1_ADDR 0 0 0xE0 0).1 = 0 := by
  decide
/-- Claim C9, amended: the round-trip holds for every
board-configuration frame whose destination and profile bytes differ
from the escape code `0xE0`, and for every accepted power-level frame
whose destination and coil bytes differ from `0xE0` and whose
heartbeat does not collide with any control code: the reference
decoder accepts the frame and yields exactly the original header
fields, command and payload bytes. -/
theorem C9_roundtrip_amended (address p1 p2 c1 c2 hb junk : Nat)
    (ha : address % 256 ≠ GEA_ESC) (hp1 : p1 % 256 ≠ GEA_ESC) (hp2 : p2 % 256 ≠ GEA_ESC)
    (hc1 : c1 % 256 ≠ GEA_ESC) (hc2 : c2 % 256 ≠ GEA_ESC)
    (hacc : withinRange (c1 % 256) minPowerSteps maxPowerSteps = true ∨
            withinRange (c2 % 256) minPowerSteps maxPowerSteps = true)
    (hnoesc : isEscaped (hb % 256) = false) :
    refDecode (initSingleGenerator address p1 p2).2
      = some [GEA_SOF, address % 256, 0x0a, LOCAL_ADDR, CMD_SET_BOARD_CONFIG,
          p1 % 256, p2 % 256]
    ∧ refDecode (setPowerLevels address c1 c2 hb junk).2
      = some [GEA_SOF, address % 256, 0x0b, LOCAL_ADDR, CMD_SET_PWR_LEVELS,
          c1 % 256, c2 % 256, hb % 256] := by
  have hhb : hb % 256 ≠ GEA_ESC := by
    intro h
    rw [h] at hnoesc
    cases hnoesc
  constructor
  · have hmem : ∀ b ∈ [GEA_SOF, address % 256, 0x0a, LOCAL_ADDR, CMD_SET_BOARD_CONFIG,
        p1 % 256, p2 % 256], b ≠ GEA_ESC := by
      intro b hbm
      simp only [List.mem_cons, List.not_mem_nil, or_false] at hbm
      rcases hbm with rfl | rfl | rfl | rfl | rfl | rfl | rfl
      · decide
      · exact ha
      · decide
      · decide
      · decide
      · exact hp1
      · exact hp2
    have h := refDecode_append [GEA_SOF, address % 256, 0x0a, LOCAL_ADDR,
      CMD_SET_BOARD_CONFIG, p1 % 256, p2 % 256] hmem
    exact h
  · have hmem : ∀ b ∈ [GEA_SOF, address % 256, 0x0b, LOCAL_ADDR, CMD_SET_PWR_LEVELS,
        c1 % 256, c2 % 256] ++ [hb % 256], b ≠ GEA_ESC := by
      intro b hbm
      simp only [List.cons_append, List.nil_append, List.mem_cons,
        List.not_mem_nil, or_false] at hbm
      rcases hbm with rfl | rfl | rfl | rfl | rfl | rfl | rfl | rfl
      · decide
      · exact ha
      · decide
      · decide
      · decide
      · exact hc1
      · exact hc2
      · exact hhb
    rw [setPowerLevels_accepted_noesc address c1 c2 hb junk hacc hnoesc]
    have hre : ([GEA_SOF, address % 256, 0x0b, LOCAL_ADDR, CMD_SET_PWR_LEVELS,
          c1 % 256, c2 % 256] : List Nat)
        ++ [hb % 256,
            CalculateCrc16 ([GEA_SOF, address % 256, 0x0b, LOCAL_ADDR, CMD_SET_PWR_LEVELS,
              c1 % 256, c2 % 256] ++ [hb % 256]) &&& 0xff,
            (CalculateCrc16 ([GEA_SOF, address % 256, 0x0b, LOCAL_ADDR, CMD_SET_PWR_LEVELS,
              c1 % 256, c2 % 256] ++ [hb % 256]) >>> 8) &&& 0xff,
            GEA_EOF, GEA_ACK]
        = ([GEA_SOF, address % 256, 0x0b, LOCAL_ADDR, CMD_SET_PWR_LEVELS,
            c1 % 256, c2 % 256] ++ [hb % 256])
          ++ [CalculateCrc16 ([GEA_SOF, address % 256, 0x0b, LOCAL_ADDR, CMD_SET_PWR_LEVELS,
                c1 % 256, c2 % 256] ++ [hb % 256]) &&& 0xff,
              (CalculateCrc16 ([GEA_SOF, address % 256, 0x0b, LOCAL_ADDR, CMD_SET_PWR_LEVELS,
                c1 % 256, c2 % 256] ++ [hb % 256]) >>> 8) &&& 0xff,
              GEA_EOF, GEA_ACK] := by
      simp
    have h := refDecode_append ([GEA_SOF, address % 256, 0x0b, LOCAL_ADDR, CMD_SET_PWR_LEVELS,
      c1 % 256, c2 % 256] ++ [hb % 256]) hmem
    rw [hre] at *
    exact h
/-- Witness for C9 at the concrete inputs `(0x88, 2, 2)` for the
board-configuration frame and `(0x88, 5, 30, 9, 0)` for a power-level
frame with a non-colliding heartbeat. -/
theorem C9_roundtrip_amended_witness :
    GEN1_ADDR % 256 ≠ GEA_ESC
    ∧ (2 : Nat) % 256 ≠ GEA_ESC
    ∧ (5 : Nat) % 256 ≠ GEA_ESC
    ∧ (30 : Nat) % 256 ≠ GEA_ESC
    ∧ isEscaped (9 % 256) = false
    ∧ (withinRange (5 % 256) minPowerSteps maxPowerSteps = true ∨
       withinRange (30 % 256) minPowerSteps maxPowerSteps = true)
    ∧ (refDecode (initSingleGenerator GEN1_ADDR 2 2).2
        = some [GEA_SOF, GEN1_ADDR % 256, 0x0a, LOCAL_ADDR, CMD_SET_BOARD_CONFIG,
            2 % 256, 2 % 256]
       ∧ refDecode (setPowerLevels GEN1_ADDR 5 30 9 0).2
        = some [GEA_SOF, GEN1_ADDR % 256, 0x0b, LOCAL_ADDR, CMD_SET_PWR_LEVELS,
            5 % 256, 30 % 256, 9 % 256]) :=
  ⟨by decide, by decide, by decide, by decide, by decide, Or.inl (by decide),
   C9_roundtrip_amended GEN1_ADDR 2 2 5 30 9 0 (by decide) (by decide) (by decide)
     (by decide) (by decide) (Or.inl (by decide)) (by decide)⟩

end GECooktop
